import Mathlib

/-!
Verification of the comparable-discovery core of the property-analysis
backend (`src/backend/analysis.py`).

Modelling conventions:
* Python floats are modelled as rationals (`ℚ`); `year_built` is an integer.
* The geodesic great-circle distance supplied by the `geopy` library is an
  external pure function of the two coordinate pairs; it is modelled as an
  explicit parameter `dist : ℚ → ℚ → ℚ → ℚ → ℚ` (lat1 lon1 lat2 lon2),
  about which theorems assume only the facts they need (non-negativity,
  symmetry, vanishing at identical points).  `taxicab_miles` below is a
  concrete instance used to evaluate the development on closed inputs.
* Python's stable `list.sort(key=..., reverse=True)` is modelled by a
  stable descending insertion sort (`sort_desc`); a stable sort by a total
  preorder is uniquely determined, so this is the same function.
* The error dictionaries `{"error": ...}` returned by the facade are
  modelled by the `AnalyzeResult.error` constructor carrying the exact
  message string; a successful analysis is `AnalyzeResult.ok`.
-/

/-- The `PropertyData` dataclass of `analysis.py`.  The `last_updated`
timestamp defaults to `none` (the Python `__post_init__` fills in a wall
clock value, which is irrelevant to all claims). -/
structure PropertyData where
  property_id : String
  address : String
  city : String
  county : String
  state : String
  zip_code : String
  latitude : ℚ
  longitude : ℚ
  building_area : ℚ
  lot_size : ℚ
  year_built : ℤ
  zoning : String
  property_type : String
  assessed_value : ℚ
  sale_price : Option ℚ := none
  sale_date : Option String := none
  last_updated : Option String := none
deriving DecidableEq

/-- The `weight_factors` dictionary set in `ComparableDiscoveryAgent.__init__`. -/
def weight_factors : String → ℚ
  | "building_area" => 30/100
  | "lot_size" => 20/100
  | "age" => 15/100
  | "zoning" => 25/100
  | "location" => 10/100
  | _ => 0

/-- `ComparableDiscoveryAgent.calculate_similarity_score`.  `dist` stands for
`geodesic((target.latitude, target.longitude), (comp.latitude, comp.longitude)).miles`. -/
def calculate_similarity_score (dist : ℚ → ℚ → ℚ → ℚ → ℚ)
    (target comp : PropertyData) : ℚ :=
  let area_ratio :=
    min target.building_area comp.building_area /
      max target.building_area comp.building_area
  let distance := dist target.latitude target.longitude comp.latitude comp.longitude
  let location_score := max 0 (1 - distance / 10)
  let age_diff := ((target.year_built - comp.year_built).natAbs : ℚ)
  let age_score := max 0 (1 - age_diff / 50)
  area_ratio * weight_factors "building_area" +
    location_score * weight_factors "location" +
    age_score * weight_factors "age"

/-- One insertion step of the stable descending sort: the inserted element
goes after every earlier element whose score is at least as large, so
elements with equal scores keep their original relative order, exactly as
Python's stable `sort(reverse=True)` behaves. -/
def insert_desc (x : PropertyData × ℚ) : List (PropertyData × ℚ) → List (PropertyData × ℚ)
  | [] => [x]
  | y :: ys => if y.2 ≤ x.2 then x :: y :: ys else y :: insert_desc x ys

/-- Stable descending sort by score, modelling
`results.sort(key=lambda x: x[1], reverse=True)`. -/
def sort_desc : List (PropertyData × ℚ) → List (PropertyData × ℚ)
  | [] => []
  | x :: xs => insert_desc x (sort_desc xs)

/-- The scored candidate list built by the loop in
`ComparableDiscoveryAgent.find_comparables`, in catalog order: every record
whose `property_id` differs from the target's, paired with its score. -/
def scored_results (dist : ℚ → ℚ → ℚ → ℚ → ℚ)
    (db : List PropertyData) (target : PropertyData) : List (PropertyData × ℚ) :=
  (db.filter fun p => p.property_id ≠ target.property_id).map
    fun p => (p, calculate_similarity_score dist target p)

/-- `ComparableDiscoveryAgent.find_comparables`: score the candidates, sort
descending (stably) and truncate to `max_results` (default 5). -/
def find_comparables (dist : ℚ → ℚ → ℚ → ℚ → ℚ) (db : List PropertyData)
    (target : PropertyData) (max_results : ℕ := 5) : List (PropertyData × ℚ) :=
  (sort_desc (scored_results dist db target)).take max_results

/-- Python's `round(x, 3)`: round to three decimals, ties to even. -/
def round3 (q : ℚ) : ℚ :=
  let s := q * 1000
  let f := ⌊s⌋
  let r : ℤ :=
    if s - f < 1/2 then f
    else if 1/2 < s - f then f + 1
    else if f % 2 = 0 then f else f + 1
  (r : ℚ) / 1000

/-- The confidence label assigned in `analyze_property_comparables`:
`'High' if s > 0.8 else 'Medium' if s > 0.6 else 'Low'`, computed on the
unrounded score. -/
def confidence_label (similarity_score : ℚ) : String :=
  if similarity_score > 8/10 then "High"
  else if similarity_score > 6/10 then "Medium"
  else "Low"

/-- One entry of the `comparables` list in the result dictionary: the
comparable record (the dict is its `asdict` flattening) together with the
rounded score and the confidence label. -/
structure ComparableEntry where
  prop : PropertyData
  similarity_score : ℚ
  confidence_level : String
deriving DecidableEq

/-- The successful result dictionary assembled by
`analyze_property_comparables` (the wall-clock `analysis_date` field is
omitted). -/
structure AnalysisResult where
  target_property : PropertyData
  comparables : List ComparableEntry
  total_comparables_found : ℕ
  avg_similarity_score : ℚ
deriving DecidableEq

/-- The facade either returns an error dictionary `{"error": msg}` or a
result dictionary. -/
inductive AnalyzeResult where
  | error (msg : String)
  | ok (result : AnalysisResult)
deriving DecidableEq

def argumentErrorMsg : String := "Either property_id or property_data must be provided"

def notFoundMsg (pid : String) : String := "Property with ID " ++ pid ++ " not found"

/-- Assembly of the result dictionary for a resolved target (the part of
`analyze_property_comparables` after target resolution). -/
def build_analysis_result (dist : ℚ → ℚ → ℚ → ℚ → ℚ) (db : List PropertyData)
    (target : PropertyData) : AnalysisResult :=
  let comparables := find_comparables dist db target 5
  { target_property := target
    comparables := comparables.map fun pr =>
      { prop := pr.1
        similarity_score := round3 pr.2
        confidence_level := confidence_label pr.2 }
    total_comparables_found := comparables.length
    avg_similarity_score :=
      if comparables.length = 0 then 0
      else (comparables.map fun pr => pr.2).sum / (comparables.length : ℚ) }

/-- Python truthiness of the `property_id: str = None` argument: truthy
exactly when present and non-empty. -/
def truthyStr : Option String → Bool
  | none => false
  | some s => s ≠ ""

/-- `PropertyAnalysisSystem.analyze_property_comparables`.  `db` is the
`properties_database` loaded into the system; a present `property_data`
dictionary is modelled by the record it constructs. -/
def analyze_property_comparables (dist : ℚ → ℚ → ℚ → ℚ → ℚ)
    (db : List PropertyData) (property_id : Option String)
    (property_data : Option PropertyData) : AnalyzeResult :=
  if truthyStr property_id then
    match db.find? (fun p => p.property_id == property_id.getD "") with
    | none => .error (notFoundMsg (property_id.getD ""))
    | some target => .ok (build_analysis_result dist db target)
  else
    match property_data with
    | some pd => .ok (build_analysis_result dist db pd)
    | none => .error argumentErrorMsg

/-- `DataExtractionAgent._validate_property_data`, restricted to the checks
that are not vacuous in the typed model (field presence and Python type
checks are guaranteed by the `PropertyData` structure): positive building
area and coordinates in range. -/
def validate_property_data (data : PropertyData) : Bool :=
  if data.building_area ≤ 0 then false
  else if ¬(-90 ≤ data.latitude ∧ data.latitude ≤ 90) then false
  else if ¬(-180 ≤ data.longitude ∧ data.longitude ≤ 180) then false
  else true

/-- A concrete, computable stand-in for the geodesic mileage function, used
only to evaluate theorems on closed inputs: it is non-negative, symmetric
and vanishes on identical points, the only properties of the geodesic the
theorems assume. -/
def taxicab_miles (la1 lo1 la2 lo2 : ℚ) : ℚ := |la1 - la2| + |lo1 - lo2|

/-! ### Helper lemmas about the stable descending sort -/

theorem mem_insert_desc {x y : PropertyData × ℚ} {l : List (PropertyData × ℚ)} :
    y ∈ insert_desc x l ↔ y = x ∨ y ∈ l := by
  induction l with
  | nil => simp [insert_desc]
  | cons z zs ih =>
      simp only [insert_desc]
      split
      · simp
      · simp [ih]; tauto

theorem mem_sort_desc {y : PropertyData × ℚ} {l : List (PropertyData × ℚ)} :
    y ∈ sort_desc l ↔ y ∈ l := by
  induction l with
  | nil => simp [sort_desc]
  | cons z zs ih => simp [sort_desc, mem_insert_desc, ih]

theorem length_insert_desc (x : PropertyData × ℚ) (l : List (PropertyData × ℚ)) :
    (insert_desc x l).length = l.length + 1 := by
  induction l with
  | nil => simp [insert_desc]
  | cons z zs ih =>
      simp only [insert_desc]
      split
      · simp
      · simp [ih]

theorem length_sort_desc (l : List (PropertyData × ℚ)) :
    (sort_desc l).length = l.length := by
  induction l with
  | nil => rfl
  | cons z zs ih => simp [sort_desc, length_insert_desc, ih]

theorem pairwise_insert_desc {x : PropertyData × ℚ} {l : List (PropertyData × ℚ)}
    (h : l.Pairwise (fun a b => b.2 ≤ a.2)) :
    (insert_desc x l).Pairwise (fun a b => b.2 ≤ a.2) := by
  induction l with
  | nil => simp [insert_desc]
  | cons z zs ih =>
      rw [List.pairwise_cons] at h
      simp only [insert_desc]
      split
      · rename_i hz
        refine List.pairwise_cons.2 ⟨?_, List.pairwise_cons.2 h⟩
        intro b hb
        rcases List.mem_cons.1 hb with hb | hb
        · exact hb ▸ hz
        · exact (h.1 b hb).trans hz
      · rename_i hz
        refine List.pairwise_cons.2 ⟨?_, ih h.2⟩
        intro b hb
        rcases mem_insert_desc.1 hb with hb | hb
        · exact hb ▸ le_of_lt (lt_of_not_le hz)
        · exact h.1 b hb

theorem pairwise_sort_desc (l : List (PropertyData × ℚ)) :
    (sort_desc l).Pairwise (fun a b => b.2 ≤ a.2) := by
  induction l with
  | nil => exact List.Pairwise.nil
  | cons z zs ih => exact pairwise_insert_desc ih

theorem filter_insert_desc (x : PropertyData × ℚ) (l : List (PropertyData × ℚ)) (q : ℚ) :
    (insert_desc x l).filter (fun pr => pr.2 = q) =
      if x.2 = q then x :: l.filter (fun pr => pr.2 = q)
      else l.filter (fun pr => pr.2 = q) := by
  induction l with
  | nil => by_cases hx : x.2 = q <;> simp [insert_desc, hx]
  | cons z zs ih =>
      simp only [insert_desc]
      by_cases hle : z.2 ≤ x.2
      · rw [if_pos hle]
        by_cases hx : x.2 = q <;> simp [List.filter_cons, hx]
      · rw [if_neg hle]
        by_cases hz : z.2 = q
        · by_cases hx : x.2 = q
          · exact absurd (le_of_eq (hz.trans hx.symm)) hle
          · simp [List.filter_cons, hz, hx, ih]
        · by_cases hx : x.2 = q <;> simp [List.filter_cons, hz, hx, ih]

theorem filter_sort_desc (l : List (PropertyData × ℚ)) (q : ℚ) :
    (sort_desc l).filter (fun pr => pr.2 = q) = l.filter (fun pr => pr.2 = q) := by
  induction l with
  | nil => rfl
  | cons z zs ih =>
      simp only [sort_desc, filter_insert_desc, ih]
      by_cases hz : z.2 = q <;> simp [List.filter, hz]

/-! ### Characterisation of find_comparables membership and score bounds -/

theorem mem_find_comparables {dist : ℚ → ℚ → ℚ → ℚ → ℚ} {db : List PropertyData}
    {t : PropertyData} {n : ℕ} {pr : PropertyData × ℚ}
    (h : pr ∈ find_comparables dist db t n) :
    pr.1 ∈ db ∧ pr.1.property_id ≠ t.property_id ∧
      pr.2 = calculate_similarity_score dist t pr.1 := by
  have h1 : pr ∈ sort_desc (scored_results dist db t) := List.mem_of_mem_take h
  rw [mem_sort_desc] at h1
  simp only [scored_results, List.mem_map, List.mem_filter, decide_eq_true_eq] at h1
  obtain ⟨p, ⟨hp, hne⟩, heq⟩ := h1
  rw [← heq]
  exact ⟨hp, hne, rfl⟩

theorem score_nonneg (dist : ℚ → ℚ → ℚ → ℚ → ℚ) (t c : PropertyData)
    (ht : 0 < t.building_area) (hc : 0 < c.building_area) :
    0 ≤ calculate_similarity_score dist t c := by
  unfold calculate_similarity_score
  simp only [weight_factors]
  have h1 : (0:ℚ) ≤ min t.building_area c.building_area := le_min ht.le hc.le
  have h2 : (0:ℚ) ≤ max t.building_area c.building_area := le_max_of_le_left ht.le
  have h3 : (0:ℚ) ≤ min t.building_area c.building_area /
      max t.building_area c.building_area := div_nonneg h1 h2
  have h4 : (0:ℚ) ≤ max 0
      (1 - dist t.latitude t.longitude c.latitude c.longitude / 10) := le_max_left 0 _
  have h5 : (0:ℚ) ≤ max 0
      (1 - ((t.year_built - c.year_built).natAbs : ℚ) / 50) := le_max_left 0 _
  have m1 := mul_nonneg h3 (by norm_num : (0:ℚ) ≤ 30/100)
  have m2 := mul_nonneg h4 (by norm_num : (0:ℚ) ≤ 10/100)
  have m3 := mul_nonneg h5 (by norm_num : (0:ℚ) ≤ 15/100)
  linarith

theorem score_le_55 (dist : ℚ → ℚ → ℚ → ℚ → ℚ) (t c : PropertyData)
    (ht : 0 < t.building_area) (hc : 0 < c.building_area)
    (hd : 0 ≤ dist t.latitude t.longitude c.latitude c.longitude) :
    calculate_similarity_score dist t c ≤ 55/100 := by
  unfold calculate_similarity_score
  simp only [weight_factors]
  have hmax : (0:ℚ) < max t.building_area c.building_area := lt_max_of_lt_left ht
  have h1 : min t.building_area c.building_area /
      max t.building_area c.building_area ≤ 1 :=
    div_le_one_of_le₀ min_le_max hmax.le
  have h2 : max 0 (1 - dist t.latitude t.longitude c.latitude c.longitude / 10) ≤ 1 := by
    refine max_le (by norm_num) ?_
    have : (0:ℚ) ≤ dist t.latitude t.longitude c.latitude c.longitude / 10 :=
      div_nonneg hd (by norm_num)
    linarith
  have h3 : max 0 (1 - ((t.year_built - c.year_built).natAbs : ℚ) / 50) ≤ 1 := by
    refine max_le (by norm_num) ?_
    have : (0:ℚ) ≤ ((t.year_built - c.year_built).natAbs : ℚ) / 50 :=
      div_nonneg (by positivity) (by norm_num)
    linarith
  have m1 : min t.building_area c.building_area /
      max t.building_area c.building_area * (30/100) ≤ 1 * (30/100) :=
    mul_le_mul_of_nonneg_right h1 (by norm_num)
  have m2 : max 0 (1 - dist t.latitude t.longitude c.latitude c.longitude / 10) * (10/100)
      ≤ 1 * (10/100) := mul_le_mul_of_nonneg_right h2 (by norm_num)
  have m3 : max 0 (1 - ((t.year_built - c.year_built).natAbs : ℚ) / 50) * (15/100)
      ≤ 1 * (15/100) := mul_le_mul_of_nonneg_right h3 (by norm_num)
  linarith

/-! ### Concrete evaluation material -/

theorem taxicab_nonneg (a b c d : ℚ) : 0 ≤ taxicab_miles a b c d := by
  unfold taxicab_miles; positivity

theorem taxicab_self (a b : ℚ) : taxicab_miles a b a b = 0 := by
  simp [taxicab_miles]

theorem taxicab_symm (a b c d : ℚ) : taxicab_miles a b c d = taxicab_miles c d a b := by
  unfold taxicab_miles
  rw [abs_sub_comm, abs_sub_comm b d]

/-- A small valid catalog record used for closed evaluations. -/
def recA : PropertyData :=
  { property_id := "A", address := "1 First St", city := "Chicago",
    county := "Cook County", state := "IL", zip_code := "60601",
    latitude := 0, longitude := 0, building_area := 100, lot_size := 200,
    year_built := 2000, zoning := "M1", property_type := "Industrial",
    assessed_value := 1000 }

/-- A second valid record: identical coordinates, building area and year as
`recA`, distinct identifier. -/
def recB : PropertyData :=
  { property_id := "B", address := "2 Second St", city := "Chicago",
    county := "Cook County", state := "IL", zip_code := "60601",
    latitude := 0, longitude := 0, building_area := 100, lot_size := 300,
    year_built := 2000, zoning := "M2", property_type := "Industrial",
    assessed_value := 1100 }

/-- An ad-hoc record violating the data-model invariant
`building_area > 0`. -/
def recBad : PropertyData :=
  { property_id := "BAD", address := "3 Broken Rd", city := "Chicago",
    county := "Cook County", state := "IL", zip_code := "60601",
    latitude := 0, longitude := 0, building_area := -1, lot_size := 200,
    year_built := 2000, zoning := "M1", property_type := "Industrial",
    assessed_value := 1000 }

/-! ### Claims -/

/-- C1: for records with strictly positive building areas the similarity
score is exactly `area_ratio*0.30 + location_score*0.10 + age_score*0.15`
with `area_ratio = min/max` of the building areas,
`location_score = max 0 (1 - distance/10)` and
`age_score = max 0 (1 - |Δyear_built|/50)`; and for two records at
identical coordinates with equal building area and equal year built the
score is 0.55 (the geodesic distance vanishing at identical points). -/
theorem claim_C1 (dist : ℚ → ℚ → ℚ → ℚ → ℚ) (t c : PropertyData)
    (ht : 0 < t.building_area) (hc : 0 < c.building_area)
    (hdist0 : ∀ la lo : ℚ, dist la lo la lo = 0) :
    calculate_similarity_score dist t c =
      (min t.building_area c.building_area / max t.building_area c.building_area)
          * (30/100)
        + max 0 (1 - dist t.latitude t.longitude c.latitude c.longitude / 10)
          * (10/100)
        + max 0 (1 - ((t.year_built - c.year_built).natAbs : ℚ) / 50) * (15/100)
      ∧ (t.latitude = c.latitude → t.longitude = c.longitude →
          t.building_area = c.building_area → t.year_built = c.year_built →
          calculate_similarity_score dist t c = 55/100) := by
  constructor
  · simp [calculate_similarity_score, weight_factors]
  · intro hla hlo harea hyear
    have hc0 : c.building_area ≠ 0 := ne_of_gt hc
    simp [calculate_similarity_score, weight_factors, hla, hlo, harea, hyear,
      hdist0, div_self hc0]
    norm_num

/-- Closed instance of C1: the hypotheses hold for `taxicab_miles` on the
records `recA`, `recB`, and the identical-attribute score evaluates to
0.55. -/
theorem claim_C1_witness :
    (0 : ℚ) < recA.building_area ∧
      calculate_similarity_score taxicab_miles recA recB = 55/100 :=
  ⟨by norm_num [recA],
    (claim_C1 taxicab_miles recA recB (by norm_num [recA]) (by norm_num [recB])
      taxicab_self).2 rfl rfl rfl rfl⟩

/-- C4: for records with strictly positive building areas the similarity
score lies in the closed interval [0, 1] (given that the geodesic distance
is non-negative). -/
theorem claim_C4 (dist : ℚ → ℚ → ℚ → ℚ → ℚ) (a b : PropertyData)
    (ha : 0 < a.building_area) (hb : 0 < b.building_area)
    (hd : 0 ≤ dist a.latitude a.longitude b.latitude b.longitude) :
    0 ≤ calculate_similarity_score dist a b ∧
      calculate_similarity_score dist a b ≤ 1 :=
  ⟨score_nonneg dist a b ha hb,
    (score_le_55 dist a b ha hb hd).trans (by norm_num)⟩

/-- Closed instance of C4 at `taxicab_miles`, `recA`, `recB`. -/
theorem claim_C4_witness :
    0 ≤ calculate_similarity_score taxicab_miles recA recB ∧
      calculate_similarity_score taxicab_miles recA recB ≤ 1 :=
  claim_C4 taxicab_miles recA recB (by norm_num [recA]) (by norm_num [recB])
    (taxicab_nonneg _ _ _ _)

/-- C5: the similarity score is symmetric in its two arguments (given that
the geodesic distance is symmetric on the two coordinate pairs). -/
theorem claim_C5 (dist : ℚ → ℚ → ℚ → ℚ → ℚ) (a b : PropertyData)
    (ha : 0 < a.building_area) (hb : 0 < b.building_area)
    (hsym : dist a.latitude a.longitude b.latitude b.longitude =
      dist b.latitude b.longitude a.latitude a.longitude) :
    calculate_similarity_score dist a b = calculate_similarity_score dist b a := by
  have hy : (a.year_built - b.year_built).natAbs =
      (b.year_built - a.year_built).natAbs := by omega
  unfold calculate_similarity_score
  rw [min_comm, max_comm, hsym, hy]

/-- Closed instance of C5 at `taxicab_miles`, `recA`, `recB`. -/
theorem claim_C5_witness :
    calculate_similarity_score taxicab_miles recA recB =
      calculate_similarity_score taxicab_miles recB recA :=
  claim_C5 taxicab_miles recA recB (by norm_num [recA]) (by norm_num [recB])
    (taxicab_symm _ _ _ _)

theorem length_filter_ne (l : List PropertyData) (s : String) :
    (l.filter fun p => p.property_id ≠ s).length =
      l.length - (l.filter fun p => p.property_id = s).length := by
  induction l with
  | nil => rfl
  | cons x xs ih =>
      have hle : (xs.filter fun p => p.property_id = s).length ≤ xs.length :=
        List.length_filter_le _ _
      rw [List.filter_cons, List.filter_cons]
      by_cases hx : x.property_id = s
      · rw [if_neg (by simp [hx]), if_pos (by simp [hx])]
        rw [ih, List.length_cons, List.length_cons]
        omega
      · rw [if_pos (by simp [hx]), if_neg (by simp [hx])]
        rw [List.length_cons, ih, List.length_cons]
        omega

/-- C3 as stated is false: with the one-record catalog `[recA]` and the
target `recB` (whose identifier does not occur in the catalog),
`find_comparables` returns one comparable, not
`min(max_results, catalog_size - 1) = 0`. -/
theorem claim_C3_counterexample :
    (find_comparables taxicab_miles [recA] recB 5).length ≠
      min 5 ([recA].length - 1) := by decide

/-- C3 amended: when the catalog contains exactly one record carrying the
target's `property_id`, the list returned by `find_comparables` has length
`min(max_results, catalog_size - 1)`. -/
theorem claim_C3 (dist : ℚ → ℚ → ℚ → ℚ → ℚ) (db : List PropertyData)
    (t : PropertyData) (n : ℕ)
    (h : (db.filter fun p => p.property_id = t.property_id).length = 1) :
    (find_comparables dist db t n).length = min n (db.length - 1) := by
  unfold find_comparables
  rw [List.length_take, length_sort_desc]
  unfold scored_results
  rw [List.length_map]
  congr 1
  rw [length_filter_ne db t.property_id, h]

/-- Closed instance of amended C3: catalog `[recA, recB]`, target `recA`
occurring exactly once, five requested results, one returned. -/
theorem claim_C3_witness :
    ([recA, recB].filter fun p => p.property_id = recA.property_id).length = 1 ∧
      (find_comparables taxicab_miles [recA, recB] recA 5).length =
        min 5 ([recA, recB].length - 1) :=
  ⟨by decide, claim_C3 taxicab_miles [recA, recB] recA 5 (by decide)⟩

/-- C6: no pair returned by `find_comparables` carries the target's
`property_id`; the target itself is never among the comparables. -/
theorem claim_C6 (dist : ℚ → ℚ → ℚ → ℚ → ℚ) (db : List PropertyData)
    (t : PropertyData) (n : ℕ) (pr : PropertyData × ℚ)
    (h : pr ∈ find_comparables dist db t n) :
    pr.1.property_id ≠ t.property_id :=
  (mem_find_comparables h).2.1

/-- Closed instance of C6: `(recB, score)` is among the comparables found
for `recA` in `[recA, recB]`, and its identifier differs from the target's. -/
theorem claim_C6_witness :
    (recB, calculate_similarity_score taxicab_miles recA recB) ∈
        find_comparables taxicab_miles [recA, recB] recA 5 ∧
      recB.property_id ≠ recA.property_id := by
  have hmem : (recB, calculate_similarity_score taxicab_miles recA recB) ∈
      find_comparables taxicab_miles [recA, recB] recA 5 :=
    List.mem_singleton.2 rfl
  exact ⟨hmem, claim_C6 taxicab_miles [recA, recB] recA 5 _ hmem⟩

/-- C7: the list returned by `find_comparables` is sorted non-increasing by
score, and the sort is stable: restricting the sorted candidate list to any
fixed score value gives exactly the candidates with that score in original
catalog order. -/
theorem claim_C7 (dist : ℚ → ℚ → ℚ → ℚ → ℚ) (db : List PropertyData)
    (t : PropertyData) (n : ℕ) :
    (find_comparables dist db t n).Pairwise (fun a b => b.2 ≤ a.2) ∧
      ∀ q : ℚ, (sort_desc (scored_results dist db t)).filter (fun pr => pr.2 = q) =
        (scored_results dist db t).filter (fun pr => pr.2 = q) := by
  refine ⟨?_, fun q => filter_sort_desc _ q⟩
  unfold find_comparables
  exact List.Pairwise.sublist (List.take_sublist _ _) (pairwise_sort_desc _)

/-- C8: calling analyze with neither a property id nor an ad-hoc record
returns the ArgumentError dictionary (a reported caller-contract
violation), for every catalog. -/
theorem claim_C8 (dist : ℚ → ℚ → ℚ → ℚ → ℚ) (db : List PropertyData) :
    analyze_property_comparables dist db none none =
      AnalyzeResult.error argumentErrorMsg := rfl

/-- C9 as stated is false: the empty-string identifier matches no record of
the catalog `[recA]`, yet analyzing by it returns the ArgumentError
dictionary, not the NotFoundError one, because the Python guard
`if property_id:` treats the empty string as absent. -/
theorem claim_C9_counterexample :
    analyze_property_comparables taxicab_miles [recA] (some "") none =
        AnalyzeResult.error argumentErrorMsg ∧
      (∀ p ∈ [recA], p.property_id ≠ "") ∧
      argumentErrorMsg ≠ notFoundMsg "" :=
  ⟨rfl, by decide, by decide⟩

/-- C9 amended: for every non-empty identifier that matches no record in
the catalog, analyze by that id returns the NotFoundError dictionary (for
any simultaneously supplied ad-hoc record, which the id path ignores). -/
theorem claim_C9 (dist : ℚ → ℚ → ℚ → ℚ → ℚ) (db : List PropertyData)
    (pid : String) (opd : Option PropertyData) (hpid : pid ≠ "")
    (habs : ∀ p ∈ db, p.property_id ≠ pid) :
    analyze_property_comparables dist db (some pid) opd =
      AnalyzeResult.error (notFoundMsg pid) := by
  unfold analyze_property_comparables
  have ht : truthyStr (some pid) = true := by simp [truthyStr, hpid]
  rw [if_pos ht]
  have hfind : db.find? (fun p => p.property_id == pid) = none := by
    rw [List.find?_eq_none]
    intro p hp
    simp [habs p hp]
  simp only [Option.getD]
  rw [hfind]

/-- Closed instance of amended C9: the identifier `"X"` is non-empty and
absent from `[recA]`; analyzing by it yields the NotFoundError dictionary. -/
theorem claim_C9_witness :
    ("X" : String) ≠ "" ∧ (∀ p ∈ [recA], p.property_id ≠ "X") ∧
      analyze_property_comparables taxicab_miles [recA] (some "X") none =
        AnalyzeResult.error (notFoundMsg "X") :=
  ⟨by decide, by decide,
    claim_C9 taxicab_miles [recA] "X" none (by decide) (by decide)⟩

/-- C2: evaluation at the failing input.  `recBad` violates the data-model
invariant `building_area > 0` and fails `_validate_property_data`, yet
`analyze_property_comparables` never invokes the validator: it constructs
the record, hands it to the Finder and Scorer, and returns an ordinary
result dictionary (with one scored comparable) instead of a ValidationError. -/
theorem claim_C2_eval :
    validate_property_data recBad = false ∧
      analyze_property_comparables taxicab_miles [recA] none (some recBad) =
        AnalyzeResult.ok (build_analysis_result taxicab_miles [recA] recBad) ∧
      (build_analysis_result taxicab_miles [recA] recBad).comparables.length = 1 ∧
      calculate_similarity_score taxicab_miles recBad recA = 247/1000 := by
  refine ⟨by decide, rfl, rfl, ?_⟩
  norm_num [calculate_similarity_score, weight_factors, recBad, recA,
    taxicab_miles, min_def, max_def]

theorem build_comparables_low (dist : ℚ → ℚ → ℚ → ℚ → ℚ) (db : List PropertyData)
    (target : PropertyData) (hdist : ∀ a b c d : ℚ, 0 ≤ dist a b c d)
    (hdb : ∀ p ∈ db, 0 < p.building_area) (htarget : 0 < target.building_area) :
    ∀ e ∈ (build_analysis_result dist db target).comparables,
      e.confidence_level = "Low" := by
  intro e he
  simp only [build_analysis_result, List.mem_map] at he
  obtain ⟨pr, hpr, rfl⟩ := he
  obtain ⟨hmem, -, hscore⟩ := mem_find_comparables hpr
  have h1 : pr.2 ≤ 55/100 := by
    rw [hscore]
    exact score_le_55 dist target pr.1 htarget (hdb _ hmem) (hdist _ _ _ _)
  show confidence_label pr.2 = "Low"
  unfold confidence_label
  rw [if_neg (not_lt.2 (by linarith)), if_neg (not_lt.2 (by linarith))]

/-- C10: over a catalog and target satisfying the data-model invariants
(positive building areas; non-negative geodesic distances), every
comparable in a successful analysis result carries confidence level "Low":
the score never exceeds 0.55, so the 0.6 and 0.8 thresholds for "Medium"
and "High" are unreachable. -/
theorem claim_C10 (dist : ℚ → ℚ → ℚ → ℚ → ℚ) (db : List PropertyData)
    (opid : Option String) (opd : Option PropertyData)
    (hdist : ∀ a b c d : ℚ, 0 ≤ dist a b c d)
    (hdb : ∀ p ∈ db, 0 < p.building_area)
    (hpd : ∀ p : PropertyData, opd = some p → 0 < p.building_area)
    (res : AnalysisResult)
    (h : analyze_property_comparables dist db opid opd = AnalyzeResult.ok res) :
    ∀ e ∈ res.comparables, e.confidence_level = "Low" := by
  unfold analyze_property_comparables at h
  by_cases hid : truthyStr opid = true
  · rw [if_pos hid] at h
    cases hfind : db.find? (fun p => p.property_id == opid.getD "") with
    | none => rw [hfind] at h; exact absurd h (by simp)
    | some target =>
        rw [hfind] at h
        injection h with h
        have htmem : target ∈ db := List.mem_of_find?_eq_some hfind
        exact h ▸ build_comparables_low dist db target hdist hdb (hdb target htmem)
  · rw [if_neg hid] at h
    cases hopd : opd with
    | none => rw [hopd] at h; exact absurd h (by simp)
    | some pd =>
        rw [hopd] at h
        injection h with h
        exact h ▸ build_comparables_low dist db pd hdist hdb (hpd pd hopd)

/-- Closed instance of C10: analyzing `recA` by id over the valid catalog
`[recA, recB]` succeeds and every comparable is labelled "Low". -/
theorem claim_C10_witness :
    analyze_property_comparables taxicab_miles [recA, recB] (some "A") none =
        AnalyzeResult.ok (build_analysis_result taxicab_miles [recA, recB] recA) ∧
      ∀ e ∈ (build_analysis_result taxicab_miles [recA, recB] recA).comparables,
        e.confidence_level = "Low" := by
  have h : analyze_property_comparables taxicab_miles [recA, recB] (some "A") none =
      AnalyzeResult.ok (build_analysis_result taxicab_miles [recA, recB] recA) := rfl
  exact ⟨h, claim_C10 taxicab_miles [recA, recB] (some "A") none taxicab_nonneg
    (by decide) (fun p hp => nomatch hp) _ h⟩
